import Mathlib

/-!
Verification of the content detection and answer-injection core of the
Real-Estate-Exam browser extension.

The development shallowly embeds the code of
src/pages/content-ui/src/utils/contentHandler.ts and the OpenAI-response
plumbing of src/pages/content-ui/src/App.tsx.  DOM state is modelled as a
record of exactly the queryable facts the code consumes (container
presence, text contents, and the page's button list); clicks are modelled
as explicit action lists.  JavaScript string operations are modelled over
ASCII (the only character range the host markup and the matching logic
exercise).
-/

namespace RealEstateExam

/- ===================== JavaScript string operations ===================== -/

/-- Code-point model of the JS regex class \s restricted to ASCII:
space, tab, newline, carriage return, vertical tab, form feed. -/
def isJsWs (c : Char) : Bool :=
  decide (c.toNat = 32 ∨ c.toNat = 9 ∨ c.toNat = 10 ∨ c.toNat = 13 ∨ c.toNat = 11 ∨ c.toNat = 12)

/-- List-level model of String.prototype.trim: drop leading and trailing
whitespace. -/
def jsTrimList (l : List Char) : List Char :=
  ((l.dropWhile isJsWs).reverse.dropWhile isJsWs).reverse

/-- Model of String.prototype.trim. -/
def jsTrim (s : String) : String :=
  String.mk (jsTrimList s.data)

/-- Model of String.prototype.toLowerCase (ASCII range, using the core
character lowering). -/
def jsToLower (s : String) : String :=
  String.mk (s.data.map Char.toLower)

/-- Model of String.prototype.includes on character lists: sub occurs
contiguously somewhere in l. -/
def listIncludes (l sub : List Char) : Bool :=
  (List.range (l.length + 1)).any fun i => sub.isPrefixOf (l.drop i)

/-- Model of String.prototype.includes. -/
def strIncludes (s sub : String) : Bool :=
  listIncludes s.data sub.data

/-- Normalised form of a button's text as the autoclick cascades compute it:
textContent trimmed then lowercased. -/
def normText (s : String) : String :=
  jsToLower (jsTrim s)

/- ===================== Content types and question data ===================== -/

/-- ContentType from contentHandler.ts: the closed enumeration of detected
page kinds. -/
inductive ContentType where
  | true_false
  | multiple_choice
  | unknown
  | text_content
  | unit_exam
deriving DecidableEq, Repr

/-- One choice of a question: its display text, the option texts, and the
identities of the live option elements (opaque ids standing for the stored
HTMLElement references). -/
structure Choice where
  text : String
  options : List String
  optionElements : List Nat
deriving DecidableEq, Repr

/-- QuestionData from contentHandler.ts. -/
structure QuestionData where
  qtype : ContentType
  contentId : String
  title : String
  question : String
  choices : List Choice
deriving DecidableEq, Repr

/-- AnswerData from contentHandler.ts. -/
structure AnswerData where
  answers : List String
deriving DecidableEq, Repr

/- ===================== generateContentId ===================== -/

/-- generateContentId from contentHandler.ts: concatenate title and question
with a "::" separator, remove all whitespace (the global replace of the
regex class \s by the empty string), and lowercase. -/
def generateContentId (title question : String) : String :=
  jsToLower (String.mk ((title ++ "::" ++ question).data.filter fun c => !(isJsWs c)))

/-- Case-and-whitespace normal form of a string: drop whitespace, lowercase
the rest.  Used to state the invariance of generateContentId. -/
def caseWsNormalize (s : String) : List Char :=
  (s.data.filter fun c => !(isJsWs c)).map Char.toLower

/- ===================== parseOpenAIResponse (App.tsx) ===================== -/

/-- Test of the regex anchor pattern of one-or-more digits followed by a
period, applied at the start of a line (the test in the true/false branch
of parseOpenAIResponse). -/
def testNumDot (l : List Char) : Bool :=
  let ds := l.takeWhile Char.isDigit
  !ds.isEmpty && ((l.drop ds.length).head? == some '.')

/-- Capture group of the match of digits, period, then optional whitespace,
returning the rest of the line (group 1 of the true/false line regex);
none when the line does not start with digits followed by a period. -/
def numDotCapture (l : List Char) : Option (List Char) :=
  let ds := l.takeWhile Char.isDigit
  if ds.isEmpty then none
  else
    match l.drop ds.length with
    | '.' :: rest => some rest
    | _ => none

/-- Model of the anchored replace removing a leading numbering of digits,
period and following whitespace (the first replace in the multiple-choice
branch); the input is left unchanged when the pattern does not match. -/
def stripLeadingNumDot (l : List Char) : List Char :=
  match numDotCapture l with
  | some rest => rest.dropWhile isJsWs
  | none => l

/-- Model of the anchored replace removing a leading dash and following
whitespace (the second replace in the multiple-choice branch). -/
def stripLeadingDash (l : List Char) : List Char :=
  match l with
  | '-' :: rest => rest.dropWhile isJsWs
  | _ => l

/-- Model of String.prototype.split on the newline character. -/
def jsSplitNewline (s : String) : List String :=
  (s.data.splitOn '\n').map String.mk

/-- Extraction of one true/false answer from a numbered line: the rest of
the line after the numbering, trimmed; the empty string when the untrimmed
line does not itself start with the numbering pattern. -/
def tfLineAnswer (line : String) : String :=
  match numDotCapture line.data with
  | some rest => jsTrim (String.mk (rest.dropWhile isJsWs))
  | none => ""

/-- parseOpenAIResponse from App.tsx.  For true/false: keep the lines whose
trimmed form starts with digits followed by a period, and map each kept
line to its answer text.  For multiple choice: the trimmed response with a
leading numbering or dash stripped, as a one-element list.  Every other
content type (including unit_exam, which the source's else-if chain does
not cover) yields the empty list. -/
def parseOpenAIResponse (response : String) (questionType : ContentType) : List String :=
  match questionType with
  | ContentType.true_false =>
      let lines := (jsSplitNewline response).filter fun line => testNumDot (jsTrim line).data
      lines.map tfLineAnswer
  | ContentType.multiple_choice =>
      [String.mk (stripLeadingDash (stripLeadingNumDot (jsTrim response).data))]
  | _ => []

/- ===================== Character-level helper lemmas ===================== -/

/-- Round trip of the character code constructor on valid code points. -/
theorem charOfNat_toNat (n : Nat) (h : n.isValidChar) : (Char.ofNat n).toNat = n := by
  simp only [Char.ofNat, dif_pos h]
  simp [Char.ofNatAux, Char.toNat, UInt32.toNat, BitVec.toNat_ofNatLt]

/-- Code point of an uppercased lowercase letter. -/
theorem toUpper_toNat (c : Char) (h1 : 97 ≤ c.toNat) (h2 : c.toNat ≤ 122) :
    (Char.toUpper c).toNat = c.toNat - 32 := by
  simp only [Char.toUpper, ge_iff_le]
  rw [if_pos ⟨h1, h2⟩]
  exact charOfNat_toNat _ (by left; omega)

/-- Uppercasing fixes characters outside the lowercase letter range. -/
theorem toUpper_eq_self (c : Char) (h : ¬(97 ≤ c.toNat ∧ c.toNat ≤ 122)) :
    Char.toUpper c = c := by
  simp only [Char.toUpper, ge_iff_le]
  rw [if_neg h]

/-- Lowercasing absorbs a preceding uppercasing. -/
theorem toLower_toUpper (c : Char) : Char.toLower (Char.toUpper c) = Char.toLower c := by
  by_cases h : 97 ≤ c.toNat ∧ c.toNat ≤ 122
  · have hup : (Char.toUpper c).toNat = c.toNat - 32 := toUpper_toNat c h.1 h.2
    have hlow : Char.toLower c = c := by
      simp only [Char.toLower, ge_iff_le]
      rw [if_neg (by omega)]
    rw [hlow]
    simp only [Char.toLower, ge_iff_le, hup]
    rw [if_pos (by omega)]
    have h32 : c.toNat - 32 + 32 = c.toNat := by omega
    rw [h32, Char.ofNat_toNat]
  · rw [toUpper_eq_self c h]

/-- Uppercasing preserves whitespace-ness. -/
theorem isJsWs_toUpper (c : Char) : isJsWs (Char.toUpper c) = isJsWs c := by
  by_cases h : 97 ≤ c.toNat ∧ c.toNat ≤ 122
  · have hup : (Char.toUpper c).toNat = c.toNat - 32 := toUpper_toNat c h.1 h.2
    simp only [isJsWs, hup]
    rw [decide_eq_decide]
    omega
  · rw [toUpper_eq_self c h]

/- ===================== C7 helper lemmas ===================== -/

/-- The content id is the whitespace-stripped lowercased title, a literal
"::" separator, and the whitespace-stripped lowercased question. -/
theorem generateContentId_eq (t q : String) :
    generateContentId t q = String.mk (caseWsNormalize t ++ ':' :: ':' :: caseWsNormalize q) := by
  simp only [generateContentId, caseWsNormalize, jsToLower]
  have hdata : (t ++ "::" ++ q).data = t.data ++ (':' :: ':' :: q.data) := by
    simp [String.data_append]
  rw [hdata]
  simp [List.filter_append, List.map_append, isJsWs]

/-- Whitespace-stripping then lowercasing is blind to prior uppercasing. -/
theorem caseWsNormalize_map_toUpper (l : List Char) :
    ((l.map Char.toUpper).filter (fun c => !(isJsWs c))).map Char.toLower
      = (l.filter (fun c => !(isJsWs c))).map Char.toLower := by
  induction l with
  | nil => rfl
  | cons c rest ih =>
    cases hws : isJsWs c with
    | true => simp [List.filter_cons, isJsWs_toUpper, hws, ih]
    | false => simp [List.filter_cons, isJsWs_toUpper, hws, ih, toLower_toUpper]

/-- C7: generateContentId is a pure function of (title, question), and the
id is invariant under case changes and whitespace insertion or removal in
either argument; inputs agreeing after dropping whitespace and lowercasing
give equal ids, and the concrete spec example collapses as stated. -/
theorem c7_generateContentId_invariance :
    (∀ t t' q q', caseWsNormalize t = caseWsNormalize t' → caseWsNormalize q = caseWsNormalize q' →
       generateContentId t q = generateContentId t' q')
    ∧ (∀ l₁ l₂ c q, isJsWs c = true →
        generateContentId (String.mk (l₁ ++ c :: l₂)) q = generateContentId (String.mk (l₁ ++ l₂)) q)
    ∧ (∀ t l₁ l₂ c, isJsWs c = true →
        generateContentId t (String.mk (l₁ ++ c :: l₂)) = generateContentId t (String.mk (l₁ ++ l₂)))
    ∧ (∀ t q, generateContentId (String.mk (t.data.map Char.toUpper)) q = generateContentId t q)
    ∧ generateContentId "Foo Bar" "Same question" = generateContentId "foobar" "Same question" := by
  have hnormIns : ∀ (l₁ l₂ : List Char) (c : Char), isJsWs c = true →
      caseWsNormalize (String.mk (l₁ ++ c :: l₂)) = caseWsNormalize (String.mk (l₁ ++ l₂)) := by
    intro l₁ l₂ c hc
    simp [caseWsNormalize, List.filter_append, List.filter_cons, hc]
  refine ⟨?_, ?_, ?_, ?_, ?_⟩
  · intro t t' q q' ht hq
    rw [generateContentId_eq, generateContentId_eq, ht, hq]
  · intro l₁ l₂ c q hc
    rw [generateContentId_eq, generateContentId_eq, hnormIns l₁ l₂ c hc]
  · intro t l₁ l₂ c hc
    rw [generateContentId_eq, generateContentId_eq, hnormIns l₁ l₂ c hc]
  · intro t q
    rw [generateContentId_eq, generateContentId_eq]
    have hnorm : caseWsNormalize (String.mk (t.data.map Char.toUpper)) = caseWsNormalize t := by
      simpa [caseWsNormalize] using caseWsNormalize_map_toUpper t.data
    rw [hnorm]
  · decide

/-- Witness for C7: the invariance theorem applied at the spec's own
example inputs. -/
theorem c7_witness :
    caseWsNormalize "Foo  Bar" = caseWsNormalize "fooBAR"
    ∧ generateContentId "Foo  Bar" "Q" = generateContentId "fooBAR" "Q" :=
  ⟨by decide, c7_generateContentId_invariance.1 "Foo  Bar" "fooBAR" "Q" "Q" (by decide) rfl⟩

/- ===================== C10 theorems ===================== -/

/-- C10 counterexample: for unit_exam the parser returns the empty list,
not a one-element answer list, because the source's else-if chain only
covers multiple_choice. -/
theorem c10_counterexample :
    parseOpenAIResponse "Paris" ContentType.unit_exam = []
    ∧ (parseOpenAIResponse "Paris" ContentType.unit_exam).length ≠ 1 := by
  constructor
  · rfl
  · decide

/-- C10 (amended): parseOpenAIResponse is total; for multiple_choice it
returns exactly one answer (the trimmed response with leading numbering or
dash stripped); for true_false it returns one entry per line whose trimmed
form begins with digits followed by a period, in particular the empty list
when no such line exists; and for unit_exam, text_content and unknown it
returns the empty list. -/
theorem c10_parseOpenAIResponse_spec :
    (∀ r, (parseOpenAIResponse r ContentType.multiple_choice).length = 1)
    ∧ (∀ r, parseOpenAIResponse r ContentType.unit_exam = [])
    ∧ (∀ r, parseOpenAIResponse r ContentType.text_content = []
          ∧ parseOpenAIResponse r ContentType.unknown = [])
    ∧ (∀ r, (parseOpenAIResponse r ContentType.true_false).length
          = ((jsSplitNewline r).filter fun line => testNumDot (jsTrim line).data).length)
    ∧ (∀ r, (∀ line ∈ jsSplitNewline r, testNumDot (jsTrim line).data = false) →
          parseOpenAIResponse r ContentType.true_false = [])
    ∧ parseOpenAIResponse "2. Allowed" ContentType.multiple_choice = ["Allowed"]
    ∧ parseOpenAIResponse "- Paris" ContentType.multiple_choice = ["Paris"]
    ∧ parseOpenAIResponse "1. Allowed\n2. Not allowed" ContentType.true_false
        = ["Allowed", "Not allowed"] := by
  refine ⟨fun r => rfl, fun r => rfl, fun r => ⟨rfl, rfl⟩, ?_, ?_, by decide, by decide, by decide⟩
  · intro r
    simp [parseOpenAIResponse]
  · intro r h
    have hfil : (jsSplitNewline r).filter (fun line => testNumDot (jsTrim line).data) = [] := by
      rw [List.filter_eq_nil_iff]
      intro a ha
      simp [h a ha]
    simp [parseOpenAIResponse, hfil]

/-- Witness for C10: the no-numbered-line hypothesis discharged on a
concrete response. -/
theorem c10_witness :
    (∀ line ∈ jsSplitNewline "no numbering here", testNumDot (jsTrim line).data = false)
    ∧ parseOpenAIResponse "no numbering here" ContentType.true_false = [] :=
  ⟨by decide, c10_parseOpenAIResponse_spec.2.2.2.2.1 "no numbering here" (by decide)⟩

/- ===================== DOM model ===================== -/

/-- A clickable page element as the code observes it: tag kind, CSS class
list, text content, the AngularJS ng-click attribute, and the disabled
flag. -/
structure Button where
  isButtonTag : Bool
  classes : List String
  text : String
  ngClick : Option String
  disabled : Bool
deriving DecidableEq, Repr

/-- The unit-exam candidate element found by the unit-exam selector list,
described by the two facts the secondary validation inspects: how many
radio-style inputs it contains and whether it has an exam-question-box
descendant. -/
structure UnitExamEl where
  radioInputCount : Nat
  hasExamQuestionBoxDesc : Bool
deriving DecidableEq, Repr

/-- One tof-choice-box: its optional choice-text node and the text contents
of its radio-label option elements. -/
structure TofChoiceBox where
  choiceText : Option String
  radioLabels : List String
deriving DecidableEq, Repr

/-- One row of the multiple-choice box: its optional checkbox label. -/
structure MultiChoiceRow where
  checkboxLabel : Option String
deriving DecidableEq, Repr

/-- The multiple-choice container with its title node, question-text node
and choice rows. -/
structure MultiChoiceEl where
  title : Option String
  text : Option String
  rows : List MultiChoiceRow
deriving DecidableEq, Repr

/-- A DOM snapshot, recording exactly the queryable facts the content
handler consumes: presence of the per-type containers, the text nodes the
extractors read, and the page's button list in document order. -/
structure Dom where
  trueFalseEl : Bool
  multiChoiceEl : Option MultiChoiceEl
  textContentEl : Bool
  unitExamEl : Option UnitExamEl
  inquiryTitle : Option String
  inquiryText : Option String
  tofChoiceBoxes : List TofChoiceBox
  nodeContentText : Option String
  examRadioLabels : List String
  buttons : List Button
  dialogAlertText : Option String
  dialogButtons : List Button
deriving DecidableEq, Repr

/-- Class membership test for the selector matching below. -/
def hasClass (b : Button) (c : String) : Bool :=
  b.classes.contains c

/-- Selector button.unit-btn.next-unit-btn. -/
def isNextUnitBtn (b : Button) : Bool :=
  b.isButtonTag && hasClass b "unit-btn" && hasClass b "next-unit-btn"

/-- hasTryAgainButton from contentHandler.ts: a next-unit button bound to
ctrl.resetInquiry() exists. -/
def hasTryAgainButton (dom : Dom) : Bool :=
  dom.buttons.any fun b => isNextUnitBtn b && b.ngClick == some "ctrl.resetInquiry()"

/-- The querySelector for the handlers' advance-existing check: the first
next-unit button not bound to ctrl.resetInquiry(). -/
def queryNextNotReset (dom : Dom) : Option Button :=
  (dom.buttons.filter fun b =>
    isNextUnitBtn b && !(b.ngClick == some "ctrl.resetInquiry()")).head?

/-- detectContentType from contentHandler.ts: first-match-wins priority
over true/false, multiple-choice, unit-exam and text-content, with the
secondary validation dropping a unit-exam candidate that has neither
radio-style inputs nor an exam-question-box descendant, and a generic
next-button fallback to text_content. -/
def detectContentType (dom : Dom) : ContentType :=
  let unitExamElement :=
    match dom.unitExamEl with
    | some el =>
        if el.radioInputCount = 0 && !el.hasExamQuestionBoxDesc then none else some el
    | none => none
  let nextButton := (dom.buttons.filter isNextUnitBtn).head?
  if dom.trueFalseEl then ContentType.true_false
  else if dom.multiChoiceEl.isSome then ContentType.multiple_choice
  else if unitExamElement.isSome then ContentType.unit_exam
  else if dom.textContentEl then ContentType.text_content
  else if nextButton.isSome then ContentType.text_content
  else ContentType.unknown

/- ===================== Extractors ===================== -/

/-- Shared shape of the extractors' text reads: trimmed text content of an
optional node, defaulting to the empty string when the node is absent. -/
def textOrEmpty (node : Option String) : String :=
  match node with
  | some t => jsTrim t
  | none => ""

/-- extractTrueFalseQuestionData from contentHandler.ts.  The source never
checks for the true/false container: it reads title, question and choice
boxes with per-node defaults, so the try/catch around it can never fire
and the result is always non-null. -/
def extractTrueFalseQuestionData (dom : Dom) : Option QuestionData :=
  let title := textOrEmpty dom.inquiryTitle
  let question := textOrEmpty dom.inquiryText
  let choices := dom.tofChoiceBoxes.map fun box =>
    { text := textOrEmpty box.choiceText
      options := box.radioLabels.map jsTrim
      optionElements := List.range box.radioLabels.length : Choice }
  some
    { qtype := ContentType.true_false
      contentId := generateContentId title question
      title := title
      question := question
      choices := choices }

/-- extractMultipleChoiceQuestionData from contentHandler.ts: null when the
multiple-choice container is absent; otherwise each row's label is both the
display text and the sole option, with no option element when the label
node is missing. -/
def extractMultipleChoiceQuestionData (dom : Dom) : Option QuestionData :=
  match dom.multiChoiceEl with
  | none => none
  | some el =>
    let title := textOrEmpty el.title
    let question := textOrEmpty el.text
    let choices := el.rows.map fun row =>
      match row.checkboxLabel with
      | some label =>
          { text := jsTrim label, options := [jsTrim label], optionElements := [0] : Choice }
      | none => { text := "", options := [""], optionElements := [] : Choice }
    some
      { qtype := ContentType.multiple_choice
        contentId := generateContentId title question
        title := title
        question := question
        choices := choices }

/-- extractUnitExamQuestionData from contentHandler.ts: constant synthetic
title, question text from the node-content box, one choice per exam radio
label; there is no container check, so the result is always non-null. -/
def extractUnitExamQuestionData (dom : Dom) : Option QuestionData :=
  let question := textOrEmpty dom.nodeContentText
  let title := "Unit Exam Question"
  let choices := dom.examRadioLabels.enum.map fun p =>
    { text := jsTrim p.2, options := [jsTrim p.2], optionElements := [p.1] : Choice }
  some
    { qtype := ContentType.unit_exam
      contentId := generateContentId title question
      title := title
      question := question
      choices := choices }

/-- A DOM snapshot with nothing on it. -/
def emptyDom : Dom :=
  { trueFalseEl := false
    multiChoiceEl := none
    textContentEl := false
    unitExamEl := none
    inquiryTitle := none
    inquiryText := none
    tofChoiceBoxes := []
    nodeContentText := none
    examRadioLabels := []
    buttons := []
    dialogAlertText := none
    dialogButtons := [] }

/- ===================== C2 theorems ===================== -/

/-- C2 counterexample: on a DOM with no containers at all, the true/false
and unit-exam extractors still return a non-null question data value with
empty fields, so the claim that every extractor returns null when its
required container is absent fails. -/
theorem c2_counterexample :
    emptyDom.trueFalseEl = false
    ∧ emptyDom.unitExamEl = none
    ∧ extractTrueFalseQuestionData emptyDom ≠ none
    ∧ extractUnitExamQuestionData emptyDom ≠ none := by
  refine ⟨rfl, rfl, ?_, ?_⟩ <;> decide

/-- C2 (amended): only the multiple-choice extractor returns null when its
container is absent (and non-null when present); the true/false and
unit-exam extractors always return a question data value, defaulting the
text fields; no extractor throws, all three being total functions of the
DOM snapshot. -/
theorem c2_extractors_null_behaviour :
    (∀ dom, dom.multiChoiceEl = none → extractMultipleChoiceQuestionData dom = none)
    ∧ (∀ dom el, dom.multiChoiceEl = some el →
        (extractMultipleChoiceQuestionData dom).isSome = true)
    ∧ (∀ dom, (extractTrueFalseQuestionData dom).isSome = true)
    ∧ (∀ dom, (extractUnitExamQuestionData dom).isSome = true) := by
  refine ⟨?_, ?_, fun dom => rfl, fun dom => rfl⟩
  · intro dom h
    simp [extractMultipleChoiceQuestionData, h]
  · intro dom el h
    simp [extractMultipleChoiceQuestionData, h]

/-- Witness for C2: the amended theorem applied to the empty DOM and to a
DOM with a multiple-choice container. -/
theorem c2_witness :
    emptyDom.multiChoiceEl = none
    ∧ extractMultipleChoiceQuestionData emptyDom = none
    ∧ (extractTrueFalseQuestionData emptyDom).isSome = true :=
  ⟨rfl, c2_extractors_null_behaviour.1 emptyDom rfl,
    c2_extractors_null_behaviour.2.2.1 emptyDom⟩

/- ===================== C8 theorems ===================== -/

/-- C8 counterexample: a DOM whose only feature is a unit-exam candidate
with no radio inputs and no exam-question-box descendant is classified
unknown, not text_content, because nothing remains for the text-content
fallbacks to match. -/
theorem c8_counterexample :
    detectContentType
      { emptyDom with unitExamEl := some { radioInputCount := 0, hasExamQuestionBoxDesc := false } }
      = ContentType.unknown := by
  decide

/-- C8 (amended): a unit-exam candidate with neither radio inputs nor an
exam-question-box descendant is rejected: the page is never classified
unit_exam, and, when no true/false or multiple-choice container matches,
classification falls through to text_content exactly when a text-content
element or a generic next button exists, and to unknown otherwise. -/
theorem c8_unit_exam_rejection :
    ∀ dom el, dom.unitExamEl = some el →
      el.radioInputCount = 0 → el.hasExamQuestionBoxDesc = false →
      dom.trueFalseEl = false → dom.multiChoiceEl = none →
      detectContentType dom ≠ ContentType.unit_exam
      ∧ (dom.textContentEl = true → detectContentType dom = ContentType.text_content)
      ∧ (dom.textContentEl = false →
          ∀ b, (dom.buttons.filter isNextUnitBtn).head? = some b →
            detectContentType dom = ContentType.text_content)
      ∧ (dom.textContentEl = false →
          (dom.buttons.filter isNextUnitBtn).head? = none →
            detectContentType dom = ContentType.unknown) := by
  intro dom el hel hradio hbox htf hmc
  have hdet : detectContentType dom =
      (if dom.textContentEl then ContentType.text_content
       else if ((dom.buttons.filter isNextUnitBtn).head?).isSome then ContentType.text_content
       else ContentType.unknown) := by
    simp [detectContentType, hel, hradio, hbox, htf, hmc]
  refine ⟨?_, ?_, ?_, ?_⟩
  · rw [hdet]
    by_cases htext : dom.textContentEl = true <;> simp [htext]
    split <;> simp
  · intro htext
    rw [hdet]
    simp [htext]
  · intro htext b hb
    rw [hdet]
    simp [htext, hb]
  · intro htext hb
    rw [hdet]
    simp [htext, hb]

/-- Witness for C8: the rejection theorem applied to a concrete DOM with a
hollow unit-exam candidate and a text-content element. -/
theorem c8_witness :
    detectContentType
      { emptyDom with
          unitExamEl := some { radioInputCount := 0, hasExamQuestionBoxDesc := false }
          textContentEl := true }
      = ContentType.text_content :=
  (c8_unit_exam_rejection
    { emptyDom with
        unitExamEl := some { radioInputCount := 0, hasExamQuestionBoxDesc := false }
        textContentEl := true }
    { radioInputCount := 0, hasExamQuestionBoxDesc := false }
    rfl rfl rfl rfl rfl).2.1 rfl

/- ===================== Answer injectors ===================== -/

/-- Exact-match tier of the true/false injector: the first option index
whose text equals the answer.  The source reads the option text by index
off the option-element list; an out-of-range read yields undefined there,
which is never strictly equal to a string, matching the none branch. -/
def tfTierExact (choice : Choice) (answer : String) : Option Nat :=
  (List.range choice.optionElements.length).find? fun j =>
    choice.options[j]? == some answer

/-- Case-insensitive tier of the true/false injector. -/
def tfTierCaseInsensitive (choice : Choice) (answer : String) : Option Nat :=
  (List.range choice.optionElements.length).find? fun j =>
    match choice.options[j]? with
    | some t => jsToLower t == jsToLower answer
    | none => false

/-- Partial tier of the true/false injector: case-insensitive bidirectional
substring containment. -/
def tfTierPartial (choice : Choice) (answer : String) : Option Nat :=
  (List.range choice.optionElements.length).find? fun j =>
    match choice.options[j]? with
    | some t =>
        strIncludes (jsToLower t) (jsToLower answer)
          || strIncludes (jsToLower answer) (jsToLower t)
    | none => false

/-- Per-choice selection of the true/false injector: exact, then
case-insensitive, then partial, then the first option as fallback (the
fallback is itself guarded by a non-empty option-element list). -/
def tfChoiceClick (choice : Choice) (answer : String) : Option Nat :=
  match tfTierExact choice answer with
  | some j => some j
  | none =>
    match tfTierCaseInsensitive choice answer with
    | some j => some j
    | none =>
      match tfTierPartial choice answer with
      | some j => some j
      | none => if choice.optionElements.length > 0 then some 0 else none

/-- selectTrueFalseAnswers from contentHandler.ts.  The result lists the
clicks performed, each as the pair of the choice index and the identity of
the clicked option element.  A choice with no paired answer or with no
option elements is skipped; an empty answer list aborts with no clicks. -/
def selectTrueFalseAnswers (qd : QuestionData) (answers : List String) : List (Nat × Nat) :=
  if answers.isEmpty then []
  else
    (List.range qd.choices.length).filterMap fun i =>
      match qd.choices[i]?, answers[i]? with
      | some choice, some answer =>
          if choice.optionElements.isEmpty then none
          else
            (tfChoiceClick choice answer).bind fun j =>
              (choice.optionElements[j]?).map fun el => (i, el)
      | _, _ => none

/-- Exact tier predicate of the multiple-choice and unit-exam injectors:
choice text equal to the answer, with at least one option element. -/
def choiceTierExact (answer : String) (c : Choice) : Bool :=
  c.text == answer && !c.optionElements.isEmpty

/-- Case-insensitive tier predicate of the multiple-choice and unit-exam
injectors. -/
def choiceTierCI (answer : String) (c : Choice) : Bool :=
  jsToLower c.text == jsToLower answer && !c.optionElements.isEmpty

/-- Partial tier predicate of the multiple-choice and unit-exam injectors:
case-sensitive bidirectional substring containment, unlike the true/false
partial tier. -/
def choiceTierPartial (answer : String) (c : Choice) : Bool :=
  (strIncludes c.text answer || strIncludes answer c.text) && !c.optionElements.isEmpty

/-- Index of the first choice satisfying a tier predicate. -/
def findChoiceIdx (choices : List Choice) (p : Choice → Bool) : Option Nat :=
  (List.range choices.length).find? fun i =>
    match choices[i]? with
    | some c => p c
    | none => false

/-- Click on the first option element of the choice at the given index. -/
def clickChoiceFirstOption (choices : List Choice) (i : Nat) : List (Nat × Nat) :=
  match choices[i]? with
  | some c =>
    match c.optionElements[0]? with
    | some el => [(i, el)]
    | none => []
  | none => []

/-- selectMultipleChoiceAnswer from contentHandler.ts: three tiers over the
choices, clicking the first option element of the first matching choice;
when no tier matches, the source only logs a warning and clicks nothing. -/
def selectMultipleChoiceAnswer (qd : QuestionData) (answer : String) : List (Nat × Nat) :=
  if qd.qtype != ContentType.multiple_choice then []
  else
    match findChoiceIdx qd.choices (choiceTierExact answer) with
    | some i => clickChoiceFirstOption qd.choices i
    | none =>
      match findChoiceIdx qd.choices (choiceTierCI answer) with
      | some i => clickChoiceFirstOption qd.choices i
      | none =>
        match findChoiceIdx qd.choices (choiceTierPartial answer) with
        | some i => clickChoiceFirstOption qd.choices i
        | none => []

/-- selectUnitExamAnswer from contentHandler.ts: identical tier structure
to the multiple-choice injector, guarded on the unit_exam type, and again
with no click at all when no tier matches. -/
def selectUnitExamAnswer (qd : QuestionData) (answer : String) : List (Nat × Nat) :=
  if qd.qtype != ContentType.unit_exam then []
  else
    match findChoiceIdx qd.choices (choiceTierExact answer) with
    | some i => clickChoiceFirstOption qd.choices i
    | none =>
      match findChoiceIdx qd.choices (choiceTierCI answer) with
      | some i => clickChoiceFirstOption qd.choices i
      | none =>
        match findChoiceIdx qd.choices (choiceTierPartial answer) with
        | some i => clickChoiceFirstOption qd.choices i
        | none => []

/- ===================== Injector fixtures and helper lemmas ===================== -/

/-- Concrete multiple-choice fixture with the spec's city options. -/
def qdCities : QuestionData :=
  { qtype := ContentType.multiple_choice
    contentId := ""
    title := ""
    question := ""
    choices :=
      [{ text := "Paris", options := ["Paris"], optionElements := [0] },
       { text := "Lyon", options := ["Lyon"], optionElements := [0] },
       { text := "Nice", options := ["Nice"], optionElements := [0] }] }

/-- Concrete true/false fixture with two scenario choices. -/
def qdScenarios : QuestionData :=
  { qtype := ContentType.true_false
    contentId := ""
    title := ""
    question := ""
    choices :=
      [{ text := "s1", options := ["Allowed", "Not allowed"], optionElements := [0, 1] },
       { text := "s2", options := ["Allowed", "Not allowed"], optionElements := [0, 1] }] }

/-- A choice index bound follows from a successful indexed read. -/
theorem lt_of_getElemQ {α : Type} {l : List α} {i : Nat} {a : α}
    (h : l[i]? = some a) : i < l.length := by
  rw [List.getElem?_eq_some] at h
  exact h.1

/-- Unfolding of the shared exact tier of the choice-scanning injectors:
when some choice has the answer as its exact text and a clickable option,
the exact scan finds the first such choice and the click lands on a choice
whose text is exactly the answer. -/
theorem findChoiceIdx_exact_click (choices : List Choice) (answer : String)
    (hex : ∃ c ∈ choices, c.text = answer ∧ c.optionElements ≠ []) :
    ∃ i c el, findChoiceIdx choices (choiceTierExact answer) = some i
      ∧ choices[i]? = some c ∧ c.text = answer
      ∧ c.optionElements[0]? = some el
      ∧ clickChoiceFirstOption choices i = [(i, el)] := by
  obtain ⟨c₀, hc₀mem, hc₀text, hc₀ne⟩ := hex
  obtain ⟨i₀, hi₀⟩ := List.mem_iff_getElem?.mp hc₀mem
  have hfindSome : (findChoiceIdx choices (choiceTierExact answer)).isSome = true := by
    unfold findChoiceIdx
    apply List.find?_isSome.mpr
    refine ⟨i₀, List.mem_range.mpr (lt_of_getElemQ hi₀), ?_⟩
    simp only [hi₀]
    unfold choiceTierExact
    rw [hc₀text]
    simp [hc₀ne]
  obtain ⟨i, hi⟩ := Option.isSome_iff_exists.mp hfindSome
  have hpred := List.find?_some hi
  cases hcg : choices[i]? with
  | none => rw [hcg] at hpred; simp at hpred
  | some c =>
    rw [hcg] at hpred
    simp only at hpred
    unfold choiceTierExact at hpred
    rw [Bool.and_eq_true] at hpred
    have htext : c.text = answer := by
      have := hpred.1
      exact eq_of_beq this
    have hcne : c.optionElements ≠ [] := by
      intro hnil
      rw [hnil] at hpred
      simp at hpred
    have hlen : 0 < c.optionElements.length := List.length_pos.mpr hcne
    have hel : c.optionElements[0]? = some c.optionElements[0] := List.getElem?_eq_getElem hlen
    refine ⟨i, c, c.optionElements[0], hi, hcg, htext, hel, ?_⟩
    unfold clickChoiceFirstOption
    simp [hcg, hel]

/-- A non-empty indexed read implies the Boolean isEmpty test is false. -/
theorem isEmpty_false_of_ne {α : Type} {l : List α} (h : l ≠ []) : l.isEmpty = false := by
  cases l with
  | nil => cases h rfl
  | cons a t => rfl

/- ===================== C3 theorems ===================== -/

/-- C3 counterexample: with the city choices and an answer matching no
tier, the multiple-choice injector performs no click at all, although the
first choice has a clickable option; the claimed first-option fallback does
not exist in this variant. -/
theorem c3_counterexample :
    qdCities.choices[0]? = some { text := "Paris", options := ["Paris"], optionElements := [0] }
    ∧ selectMultipleChoiceAnswer qdCities "xyz" = [] := by
  constructor
  · rfl
  · decide

/-- C3 (amended): only the true/false injector has the first-option
fallback: when no tier matches a choice with a non-empty option-element
list, it clicks that choice's first option; the multiple-choice and
unit-exam injectors click nothing when no tier matches. -/
theorem c3_no_match_fallback :
    (∀ qd answers i choice answer,
       qd.choices[i]? = some choice → answers[i]? = some answer →
       choice.optionElements ≠ [] →
       tfTierExact choice answer = none → tfTierCaseInsensitive choice answer = none →
       tfTierPartial choice answer = none →
       ∃ el, choice.optionElements[0]? = some el
         ∧ (i, el) ∈ selectTrueFalseAnswers qd answers)
    ∧ (∀ qd answer,
        findChoiceIdx qd.choices (choiceTierExact answer) = none →
        findChoiceIdx qd.choices (choiceTierCI answer) = none →
        findChoiceIdx qd.choices (choiceTierPartial answer) = none →
        selectMultipleChoiceAnswer qd answer = [])
    ∧ (∀ qd answer,
        findChoiceIdx qd.choices (choiceTierExact answer) = none →
        findChoiceIdx qd.choices (choiceTierCI answer) = none →
        findChoiceIdx qd.choices (choiceTierPartial answer) = none →
        selectUnitExamAnswer qd answer = []) := by
  refine ⟨?_, ?_, ?_⟩
  · intro qd answers i choice answer hch hans hne h1 h2 h3
    have hlen : 0 < choice.optionElements.length := List.length_pos.mpr hne
    have hel : choice.optionElements[0]? = some choice.optionElements[0] :=
      List.getElem?_eq_getElem hlen
    refine ⟨choice.optionElements[0], hel, ?_⟩
    have hansLen : i < answers.length := lt_of_getElemQ hans
    have hansNe : answers.isEmpty = false := by
      apply isEmpty_false_of_ne
      intro hnil
      rw [hnil] at hansLen
      simp at hansLen
    have hclick : tfChoiceClick choice answer = some 0 := by
      unfold tfChoiceClick
      simp only [h1, h2, h3]
      rw [if_pos hlen]
    unfold selectTrueFalseAnswers
    simp only [hansNe, Bool.false_eq_true, if_false]
    apply List.mem_filterMap.mpr
    refine ⟨i, List.mem_range.mpr (lt_of_getElemQ hch), ?_⟩
    simp only [hch, hans, isEmpty_false_of_ne hne, Bool.false_eq_true, if_false, hclick]
    simp [hel]
  · intro qd answer h1 h2 h3
    unfold selectMultipleChoiceAnswer
    split
    · rfl
    · simp only [h1, h2, h3]
  · intro qd answer h1 h2 h3
    unfold selectUnitExamAnswer
    split
    · rfl
    · simp only [h1, h2, h3]

/-- Witness for C3: fallback of the true/false injector and empty result of
the multiple-choice injector at concrete inputs. -/
theorem c3_witness :
    ((0, 0) ∈ selectTrueFalseAnswers qdScenarios ["zzz"])
    ∧ selectMultipleChoiceAnswer qdCities "xyz" = [] := by
  constructor
  · obtain ⟨el, hel, hmem⟩ :=
      c3_no_match_fallback.1 qdScenarios ["zzz"] 0
        { text := "s1", options := ["Allowed", "Not allowed"], optionElements := [0, 1] }
        "zzz" rfl rfl (by decide) (by decide) (by decide) (by decide)
    have hel0 : el = 0 := by
      have : some el = some 0 := by rw [← hel]; rfl
      exact Option.some.inj this.symm |>.symm
    rw [hel0] at hmem
    exact hmem
  · exact c3_no_match_fallback.2.1 qdCities "xyz" (by decide) (by decide) (by decide)

/- ===================== C6 theorems ===================== -/

/-- C6: the exact-match tier has strict priority in every injector variant.
For true/false: when some option of the processed choice equals the answer
exactly, the exact scan succeeds, and the injector clicks the option found
by it, whose text is exactly the answer.  For multiple-choice and
unit-exam: when some choice's text equals the answer exactly (and it has a
clickable option), the single click lands on a choice whose text is exactly
the answer, never on a merely case-insensitive or substring candidate. -/
theorem c6_exact_match_priority :
    (∀ choice answer,
       (∃ j, j < choice.optionElements.length ∧ choice.options[j]? = some answer) →
       (tfTierExact choice answer).isSome = true)
    ∧ (∀ qd answers i choice answer j₀,
        qd.choices[i]? = some choice → answers[i]? = some answer →
        tfTierExact choice answer = some j₀ →
        choice.options[j₀]? = some answer
          ∧ ∃ el, choice.optionElements[j₀]? = some el
              ∧ (i, el) ∈ selectTrueFalseAnswers qd answers)
    ∧ (∀ qd answer,
        qd.qtype = ContentType.multiple_choice →
        (∃ c ∈ qd.choices, c.text = answer ∧ c.optionElements ≠ []) →
        ∃ i c el, qd.choices[i]? = some c ∧ c.text = answer
          ∧ c.optionElements[0]? = some el
          ∧ selectMultipleChoiceAnswer qd answer = [(i, el)])
    ∧ (∀ qd answer,
        qd.qtype = ContentType.unit_exam →
        (∃ c ∈ qd.choices, c.text = answer ∧ c.optionElements ≠ []) →
        ∃ i c el, qd.choices[i]? = some c ∧ c.text = answer
          ∧ c.optionElements[0]? = some el
          ∧ selectUnitExamAnswer qd answer = [(i, el)]) := by
  refine ⟨?_, ?_, ?_, ?_⟩
  · intro choice answer ⟨j, hj, hjopt⟩
    unfold tfTierExact
    apply List.find?_isSome.mpr
    refine ⟨j, List.mem_range.mpr hj, ?_⟩
    rw [hjopt]
    simp
  · intro qd answers i choice answer j₀ hch hans hex
    have hexF := hex
    unfold tfTierExact at hexF
    have hj₀lt : j₀ < choice.optionElements.length :=
      List.mem_range.mp (List.mem_of_find?_eq_some hexF)
    have hopt : choice.options[j₀]? = some answer := by
      have hp := List.find?_some hexF
      simpa using hp
    have hel : choice.optionElements[j₀]? = some choice.optionElements[j₀] :=
      List.getElem?_eq_getElem hj₀lt
    refine ⟨hopt, choice.optionElements[j₀], hel, ?_⟩
    have hne : choice.optionElements ≠ [] := by
      intro hnil
      rw [hnil] at hj₀lt
      simp at hj₀lt
    have hansLen : i < answers.length := lt_of_getElemQ hans
    have hansNe : answers.isEmpty = false := by
      apply isEmpty_false_of_ne
      intro hnil
      rw [hnil] at hansLen
      simp at hansLen
    have hclick : tfChoiceClick choice answer = some j₀ := by
      unfold tfChoiceClick
      simp only [hex]
    unfold selectTrueFalseAnswers
    simp only [hansNe, Bool.false_eq_true, if_false]
    apply List.mem_filterMap.mpr
    refine ⟨i, List.mem_range.mpr (lt_of_getElemQ hch), ?_⟩
    simp only [hch, hans, isEmpty_false_of_ne hne, Bool.false_eq_true, if_false, hclick]
    simp [hel]
  · intro qd answer hq hex
    obtain ⟨i, c, el, hfind, hcg, htext, hel, hclick⟩ := findChoiceIdx_exact_click qd.choices answer hex
    refine ⟨i, c, el, hcg, htext, hel, ?_⟩
    unfold selectMultipleChoiceAnswer
    rw [if_neg (by simp [hq])]
    simp only [hfind]
    exact hclick
  · intro qd answer hq hex
    obtain ⟨i, c, el, hfind, hcg, htext, hel, hclick⟩ := findChoiceIdx_exact_click qd.choices answer hex
    refine ⟨i, c, el, hcg, htext, hel, ?_⟩
    unfold selectUnitExamAnswer
    rw [if_neg (by simp [hq])]
    simp only [hfind]
    exact hclick

/-- Witness for C6: the multiple-choice conjunct at the city fixture and
the exact answer Lyon, which is clicked in favour of any later tier. -/
theorem c6_witness :
    qdCities.qtype = ContentType.multiple_choice
    ∧ ∃ i c el, qdCities.choices[i]? = some c ∧ c.text = "Lyon"
        ∧ c.optionElements[0]? = some el
        ∧ selectMultipleChoiceAnswer qdCities "Lyon" = [(i, el)] :=
  ⟨rfl, c6_exact_match_priority.2.2.1 qdCities "Lyon" rfl
    ⟨{ text := "Lyon", options := ["Lyon"], optionElements := [0] }, by decide, rfl, by decide⟩⟩

/- ===================== C9 theorems ===================== -/

/-- C9: the true/false injector never clicks for a choice index at or past
the end of the answer list, nor for a choice with no option elements: every
recorded click carries an in-range answer index and a choice with a
non-empty option-element list. -/
theorem c9_tf_skips_unanswered :
    ∀ qd answers i el, (i, el) ∈ selectTrueFalseAnswers qd answers →
      i < answers.length ∧ ∃ c, qd.choices[i]? = some c ∧ c.optionElements ≠ [] := by
  intro qd answers i el hmem
  unfold selectTrueFalseAnswers at hmem
  by_cases hne : answers.isEmpty = true
  · simp [hne] at hmem
  · rw [Bool.not_eq_true] at hne
    simp only [hne, Bool.false_eq_true, if_false] at hmem
    rw [List.mem_filterMap] at hmem
    obtain ⟨a, _, hfa⟩ := hmem
    cases hcg : qd.choices[a]? with
    | none => rw [hcg] at hfa; simp at hfa
    | some choice =>
      cases hag : answers[a]? with
      | none => rw [hcg, hag] at hfa; simp at hfa
      | some answer =>
        rw [hcg, hag] at hfa
        by_cases hemp : choice.optionElements.isEmpty = true
        · simp [hemp] at hfa
        · rw [Bool.not_eq_true] at hemp
          simp only [hemp, Bool.false_eq_true, if_false] at hfa
          rw [Option.bind_eq_some] at hfa
          obtain ⟨j, _, hmap⟩ := hfa
          rw [Option.map_eq_some'] at hmap
          obtain ⟨el', _, heq⟩ := hmap
          have hai : a = i := congrArg Prod.fst heq
          subst hai
          refine ⟨lt_of_getElemQ hag, choice, hcg, ?_⟩
          intro hnil
          rw [hnil] at hemp
          simp at hemp

/-- Witness for C9: a concrete click of the scenario fixture satisfies the
bounds the theorem asserts. -/
theorem c9_witness :
    ((0, 1) ∈ selectTrueFalseAnswers qdScenarios ["Not allowed"])
    ∧ 0 < (["Not allowed"] : List String).length
    ∧ ∃ c, qdScenarios.choices[0]? = some c ∧ c.optionElements ≠ [] :=
  ⟨by decide,
    (c9_tf_skips_unanswered qdScenarios ["Not allowed"] 0 1 (by decide)).1,
    (c9_tf_skips_unanswered qdScenarios ["Not allowed"] 0 1 (by decide)).2⟩

/- ===================== Autoclick cascades ===================== -/

/-- Selector matching the check-answers cascade's first selector: a
unit-btn next-unit-btn element bound to ctrl.checkAnswers(). -/
def ccabSel1 (b : Button) : Bool :=
  hasClass b "unit-btn" && hasClass b "next-unit-btn" && b.ngClick == some "ctrl.checkAnswers()"

/-- Selector matching the cascade's second selector: unit-btn and
next-unit-btn classes. -/
def ccabSel2 (b : Button) : Bool :=
  hasClass b "unit-btn" && hasClass b "next-unit-btn"

/-- Selector matching the cascade's third selector: a button element with
the unit-btn class and without the prev-unit-btn class. -/
def ccabSel3 (b : Button) : Bool :=
  b.isButtonTag && hasClass b "unit-btn" && !(hasClass b "prev-unit-btn")

/-- Selector matching the cascade's fourth selector: the unit-btn class. -/
def ccabSel4 (b : Button) : Bool :=
  hasClass b "unit-btn"

/-- The page-wide button query of the cascade: every button element and
every unit-btn element, in document order. -/
def allPageButtons (dom : Dom) : List Button :=
  dom.buttons.filter fun b => b.isButtonTag || hasClass b "unit-btn"

/-- First loop of the per-selector step: the first enabled button whose
text contains check and answer, skipping buttons whose text contains
continue to final exam. -/
def ccabCheckAnswerLoop (bs : List Button) : Option Button :=
  bs.find? fun b =>
    !(strIncludes (normText b.text) "continue to final exam")
      && (strIncludes (normText b.text) "check" && strIncludes (normText b.text) "answer"
            && !b.disabled)

/-- Second loop of the per-selector step: the first enabled button,
skipping only buttons whose text contains continue to final exam. -/
def ccabFirstEnabledLoop (bs : List Button) : Option Button :=
  bs.find? fun b =>
    !(strIncludes (normText b.text) "continue to final exam") && !b.disabled

/-- One iteration of the selector cascade: when the selector matched any
element, try the check-answers text loop then the first-enabled loop;
finding nothing falls through to the next selector. -/
def ccabSelectorStep (bs : List Button) : Option Button :=
  if bs.isEmpty then none
  else
    match ccabCheckAnswerLoop bs with
    | some b => some b
    | none => ccabFirstEnabledLoop bs

/-- The find-by-text step after the selector cascade: any page button whose
text contains check and answer but not continue to final exam (the
disabled test is applied by the caller). -/
def ccabByText (bs : List Button) : Option Button :=
  bs.find? fun b =>
    strIncludes (normText b.text) "check" && strIncludes (normText b.text) "answer"
      && !(strIncludes (normText b.text) "continue to final exam")

/-- Last-resort predicate of the cascade: an enabled button not carrying
any of the three continue-to phrases whose text or class list implies
submit or next or continue. -/
def ccabLastResortPred (b : Button) : Bool :=
  if b.disabled then false
  else
    if strIncludes (normText b.text) "continue to final exam"
        || strIncludes (normText b.text) "continue to unit exam"
        || strIncludes (normText b.text) "continue to lesson" then false
    else
      strIncludes (normText b.text) "submit"
        || strIncludes (normText b.text) "next"
        || strIncludes (normText b.text) "continue"
        || strIncludes (jsToLower (String.intercalate " " b.classes)) "submit"
        || strIncludes (jsToLower (String.intercalate " " b.classes)) "next"

/-- clickCheckAnswersButton from contentHandler.ts, returning the button it
clicks (none when it resolves false).  The two colon-contains selectors of
the source's list are invalid CSS: querySelectorAll throws on them and the
per-selector try/catch skips them, so they contribute nothing.  After the
selector cascade come the find-by-text step and the last-resort filter. -/
def clickCheckAnswersButton (dom : Dom) : Option Button :=
  let bySelectors :=
    match ccabSelectorStep (dom.buttons.filter ccabSel1) with
    | some b => some b
    | none =>
      match ccabSelectorStep (dom.buttons.filter ccabSel2) with
      | some b => some b
      | none =>
        match ccabSelectorStep (dom.buttons.filter ccabSel3) with
        | some b => some b
        | none => ccabSelectorStep (dom.buttons.filter ccabSel4)
  match bySelectors with
  | some b => some b
  | none =>
    match ccabByText (allPageButtons dom) with
    | some b =>
        if !b.disabled then some b
        else ((allPageButtons dom).filter ccabLastResortPred).head?
    | none => ((allPageButtons dom).filter ccabLastResortPred).head?

/-- Selector next-unit-btn not bound to ctrl.resetInquiry(). -/
def nextSel1 (b : Button) : Bool :=
  isNextUnitBtn b && !(b.ngClick == some "ctrl.resetInquiry()")

/-- Selector next-unit-btn bound to ctrl.goToNextStep(). -/
def nextSel2 (b : Button) : Bool :=
  isNextUnitBtn b && b.ngClick == some "ctrl.goToNextStep()"

/-- Acceptance filter of clickNextButton: enabled and free of all three
continue-to phrases. -/
def nextBtnOk (b : Button) : Bool :=
  !b.disabled
    && !(strIncludes (normText b.text) "continue to final exam")
    && !(strIncludes (normText b.text) "continue to unit exam")
    && !(strIncludes (normText b.text) "continue to lesson")

/-- clickNextButton from contentHandler.ts: collect, over the three
next-button selectors in order, the enabled buttons free of the three
continue-to phrases, and click the first one collected. -/
def clickNextButton (dom : Dom) : Option Button :=
  ((dom.buttons.filter nextSel1).filter nextBtnOk
      ++ (dom.buttons.filter nextSel2).filter nextBtnOk
      ++ (dom.buttons.filter isNextUnitBtn).filter nextBtnOk).head?

/- ===================== C1 helper lemmas ===================== -/

/-- The head of a list, when present, is a member. -/
theorem mem_of_headQ {α : Type} {l : List α} {a : α} (h : l.head? = some a) : a ∈ l := by
  cases l with
  | nil => cases h
  | cons x t =>
    have hx : x = a := Option.some.inj h
    rw [← hx]
    exact List.mem_cons_self x t

/-- Every button produced by a selector step of the check-answers cascade
is free of the continue-to-final-exam phrase. -/
theorem ccabSelectorStep_no_final {bs : List Button} {b : Button}
    (h : ccabSelectorStep bs = some b) :
    strIncludes (normText b.text) "continue to final exam" = false := by
  unfold ccabSelectorStep at h
  by_cases hbs : bs.isEmpty = true
  · rw [if_pos hbs] at h
    cases h
  · rw [if_neg hbs] at h
    cases hA : ccabCheckAnswerLoop bs with
    | some b0 =>
      rw [hA] at h
      have hb0 : b0 = b := Option.some.inj h
      subst hb0
      have hp := List.find?_some hA
      simp only [Bool.and_eq_true, Bool.not_eq_true'] at hp
      exact hp.1
    | none =>
      rw [hA] at h
      have hp := List.find?_some h
      simp only [Bool.and_eq_true, Bool.not_eq_true'] at hp
      exact hp.1

/- ===================== C1 theorems ===================== -/

/-- The hostile fixture: a single enabled next-unit button whose label is
Continue to Unit Exam. -/
def continueUnitExamBtn : Button :=
  { isButtonTag := true
    classes := ["unit-btn", "next-unit-btn"]
    text := "Continue to Unit Exam"
    ngClick := none
    disabled := false }

/-- C1 counterexample: on a DOM whose only button is an enabled
Continue to Unit Exam next-unit button, the check-answers cascade's
first-enabled-button loop clicks it, because that loop only excludes the
continue-to-final-exam phrase; so the Driver does autoclick a control whose
text contains continue to unit exam. -/
theorem c1_counterexample :
    clickCheckAnswersButton { emptyDom with buttons := [continueUnitExamBtn] }
      = some continueUnitExamBtn
    ∧ strIncludes (normText continueUnitExamBtn.text) "continue to unit exam" = true := by
  constructor
  · decide
  · decide

/-- C1 (amended): clickNextButton never clicks a button whose text contains
any of the three continue-to phrases, and clickCheckAnswersButton never
clicks a button whose text contains continue to final exam; the weaker
paths of the check cascade (check-text, first-enabled, find-by-text) do not
exclude the unit-exam and lesson phrases, and the handlers' inline
next-button clicks apply no text exclusion at all. -/
theorem c1_autoclick_exclusions :
    (∀ dom b, clickNextButton dom = some b →
       strIncludes (normText b.text) "continue to final exam" = false
       ∧ strIncludes (normText b.text) "continue to unit exam" = false
       ∧ strIncludes (normText b.text) "continue to lesson" = false)
    ∧ (∀ dom b, clickCheckAnswersButton dom = some b →
        strIncludes (normText b.text) "continue to final exam" = false) := by
  constructor
  · intro dom b h
    unfold clickNextButton at h
    have hmem := mem_of_headQ h
    have hok : nextBtnOk b = true := by
      rcases List.mem_append.mp hmem with h1 | h2
      · rcases List.mem_append.mp h1 with h3 | h4
        · exact List.of_mem_filter h3
        · exact List.of_mem_filter h4
      · exact List.of_mem_filter h2
    unfold nextBtnOk at hok
    simp only [Bool.and_eq_true, Bool.not_eq_true'] at hok
    exact ⟨hok.1.1.2, hok.1.2, hok.2⟩
  · intro dom b h
    unfold clickCheckAnswersButton at h
    cases h1 : ccabSelectorStep (dom.buttons.filter ccabSel1) with
    | some b1 =>
      simp only [h1] at h
      exact (Option.some.inj h) ▸ ccabSelectorStep_no_final h1
    | none =>
    cases h2 : ccabSelectorStep (dom.buttons.filter ccabSel2) with
    | some b2 =>
      simp only [h1, h2] at h
      exact (Option.some.inj h) ▸ ccabSelectorStep_no_final h2
    | none =>
    cases h3 : ccabSelectorStep (dom.buttons.filter ccabSel3) with
    | some b3 =>
      simp only [h1, h2, h3] at h
      exact (Option.some.inj h) ▸ ccabSelectorStep_no_final h3
    | none =>
    cases h4 : ccabSelectorStep (dom.buttons.filter ccabSel4) with
    | some b4 =>
      simp only [h1, h2, h3, h4] at h
      exact (Option.some.inj h) ▸ ccabSelectorStep_no_final h4
    | none =>
    simp only [h1, h2, h3, h4] at h
    cases h5 : ccabByText (allPageButtons dom) with
    | some b5 =>
      simp only [h5] at h
      by_cases hd : b5.disabled = true
      · simp only [hd, Bool.not_true, Bool.false_eq_true, if_false] at h
        have hmem := mem_of_headQ h
        have hok : ccabLastResortPred b = true := List.of_mem_filter hmem
        unfold ccabLastResortPred at hok
        by_cases hdd : b.disabled = true
        · rw [if_pos hdd] at hok
          cases hok
        · rw [if_neg hdd] at hok
          by_cases hph : (strIncludes (normText b.text) "continue to final exam"
              || strIncludes (normText b.text) "continue to unit exam"
              || strIncludes (normText b.text) "continue to lesson") = true
          · rw [if_pos hph] at hok
            cases hok
          · simp only [Bool.or_eq_true, not_or, Bool.not_eq_true] at hph
            exact hph.1.1
      · rw [Bool.not_eq_true] at hd
        simp only [hd, Bool.not_false, if_true] at h
        have hb5 : b5 = b := Option.some.inj h
        subst hb5
        have hp := List.find?_some h5
        simp only [Bool.and_eq_true, Bool.not_eq_true'] at hp
        exact hp.2
    | none =>
      simp only [h5] at h
      have hmem := mem_of_headQ h
      have hok : ccabLastResortPred b = true := List.of_mem_filter hmem
      unfold ccabLastResortPred at hok
      by_cases hdd : b.disabled = true
      · rw [if_pos hdd] at hok
        cases hok
      · rw [if_neg hdd] at hok
        by_cases hph : (strIncludes (normText b.text) "continue to final exam"
            || strIncludes (normText b.text) "continue to unit exam"
            || strIncludes (normText b.text) "continue to lesson") = true
        · rw [if_pos hph] at hok
          cases hok
        · simp only [Bool.or_eq_true, not_or, Bool.not_eq_true] at hph
          exact hph.1.1

/-- A plain enabled Next button. -/
def nextPlainBtn : Button :=
  { isButtonTag := true
    classes := ["unit-btn", "next-unit-btn"]
    text := "Next"
    ngClick := none
    disabled := false }

/-- An enabled Check Answers button (unit-btn class only, so the handlers'
advance-existing query does not match it). -/
def checkAnswersBtn : Button :=
  { isButtonTag := true
    classes := ["unit-btn"]
    text := "Check Answers"
    ngClick := some "ctrl.checkAnswers()"
    disabled := false }

/-- Witness for C1: the exclusion theorem applied to a DOM holding one
enabled plain Next button and to one holding one Check Answers button. -/
theorem c1_witness :
    (clickNextButton { emptyDom with buttons := [nextPlainBtn] } = some nextPlainBtn
      ∧ strIncludes (normText nextPlainBtn.text) "continue to final exam" = false)
    ∧ (clickCheckAnswersButton { emptyDom with buttons := [checkAnswersBtn] }
          = some checkAnswersBtn
      ∧ strIncludes (normText checkAnswersBtn.text) "continue to final exam" = false) := by
  refine ⟨⟨by decide, ?_⟩, ⟨by decide, ?_⟩⟩
  · exact (c1_autoclick_exclusions.1 { emptyDom with buttons := [nextPlainBtn] } nextPlainBtn
      (by decide)).1
  · exact c1_autoclick_exclusions.2 { emptyDom with buttons := [checkAnswersBtn] } checkAnswersBtn
      (by decide)

/- ===================== Driver tick model ===================== -/

/-- A DOM mutation performed during a tick: a click on a page button, or a
click on a question option element (choice index and element identity). -/
inductive Action where
  | clickPageButton (b : Button)
  | clickOption (choiceIdx : Nat) (el : Nat)
deriving DecidableEq, Repr

/-- The user-visible AI status values that a callback invocation can leave
behind. -/
inductive AiStatus where
  | processing
  | success
  | error
deriving DecidableEq, Repr

/-- The reply of the external answer source, as relayed by the background
script. -/
structure AiResult where
  status : String
  aiResponse : Option String
  error : Option String
deriving DecidableEq, Repr

/-- The error message surfaced on an error status: the supplied error
string, with the JS falsy default applying to an absent or empty string. -/
def errMsg (r : AiResult) : String :=
  match r.error with
  | some e => if e = "" then "Unknown error from background script" else e
  | none => "Unknown error from background script"

/-- handleOpenAIProcessing from App.tsx, as a function of the question data
and the background reply: on an error status the thrown error is caught,
the AI status becomes error with the supplied message, and the answer list
is empty; otherwise the reply text is parsed per question type and the
status becomes success. -/
def handleOpenAIProcessing (qd : QuestionData) (r : AiResult) :
    AnswerData × AiStatus × Option String :=
  if r.status == "error" then ({ answers := [] }, AiStatus.error, some (errMsg r))
  else
    ({ answers := parseOpenAIResponse (r.aiResponse.getD "") qd.qtype }, AiStatus.success, none)

/-- The observable outcome of one handler run or one polling tick: the DOM
mutations in order, whether an extractor ran, and the AI status and error
left by a callback invocation (none when the callback never ran). -/
structure TickResult where
  actions : List Action
  extracted : Bool
  aiStatus : Option AiStatus
  aiError : Option String
deriving DecidableEq, Repr

/-- A tick outcome with no effects at all. -/
def noTick : TickResult :=
  { actions := [], extracted := false, aiStatus := none, aiError := none }

/-- A tick outcome consisting of one button click. -/
def singleClick (b : Button) : TickResult :=
  { actions := [Action.clickPageButton b], extracted := false, aiStatus := none, aiError := none }

/-- Option clicks as actions. -/
def optionClicks (l : List (Nat × Nat)) : List Action :=
  l.map fun p => Action.clickOption p.1 p.2

/-- The actions of one run of the check-answers cascade. -/
def ccabActions (dom : Dom) : List Action :=
  match clickCheckAnswersButton dom with
  | some b => [Action.clickPageButton b]
  | none => []

/-- Body of handleTrueFalseContent after its two guards: extract, invoke
the callback, inject the answers, and always run the check-answers cascade
(the source does not test the answer list before clicking check). -/
def handleTrueFalseCore (dom : Dom) (r : AiResult) : TickResult :=
  match extractTrueFalseQuestionData dom with
  | none => { actions := [], extracted := true, aiStatus := none, aiError := none }
  | some qd =>
    let (answerData, st, err) := handleOpenAIProcessing qd r
    { actions := optionClicks (selectTrueFalseAnswers qd answerData.answers) ++ ccabActions dom
      extracted := true
      aiStatus := some st
      aiError := err }

/-- handleTrueFalseContent from contentHandler.ts: skip when a try-again
control is present; click an enabled non-reset next button when present;
otherwise run the core. -/
def handleTrueFalseContentM (dom : Dom) (r : AiResult) : TickResult :=
  if hasTryAgainButton dom then noTick
  else
    match queryNextNotReset dom with
    | some b => if !b.disabled then singleClick b else handleTrueFalseCore dom r
    | none => handleTrueFalseCore dom r

/-- Body of handleMultipleChoiceContent after its guards: extract, invoke
the callback, and only when the answer list is non-empty inject the first
answer and run the check-answers cascade. -/
def handleMultipleChoiceCore (dom : Dom) (r : AiResult) : TickResult :=
  match extractMultipleChoiceQuestionData dom with
  | none => { actions := [], extracted := true, aiStatus := none, aiError := none }
  | some qd =>
    let (answerData, st, err) := handleOpenAIProcessing qd r
    match answerData.answers with
    | [] => { actions := [], extracted := true, aiStatus := some st, aiError := err }
    | a :: _ =>
      { actions := optionClicks (selectMultipleChoiceAnswer qd a) ++ ccabActions dom
        extracted := true
        aiStatus := some st
        aiError := err }

/-- handleMultipleChoiceContent from contentHandler.ts: the same two guards
as the true/false handler, then the core. -/
def handleMultipleChoiceContentM (dom : Dom) (r : AiResult) : TickResult :=
  if hasTryAgainButton dom then noTick
  else
    match queryNextNotReset dom with
    | some b => if !b.disabled then singleClick b else handleMultipleChoiceCore dom r
    | none => handleMultipleChoiceCore dom r

/-- handleUnitExamContent from contentHandler.ts: no guards at all;
extract, invoke the callback, and when the answer list is non-empty inject
the first answer and click the enabled next button when one exists. -/
def handleUnitExamContentM (dom : Dom) (r : AiResult) : TickResult :=
  match extractUnitExamQuestionData dom with
  | none => { actions := [], extracted := true, aiStatus := none, aiError := none }
  | some qd =>
    let (answerData, st, err) := handleOpenAIProcessing qd r
    match answerData.answers with
    | [] => { actions := [], extracted := true, aiStatus := some st, aiError := err }
    | a :: _ =>
      let nextClicks :=
        match (dom.buttons.filter fun b => isNextUnitBtn b && !b.disabled).head? with
        | some b => [Action.clickPageButton b]
        | none => []
      { actions := optionClicks (selectUnitExamAnswer qd a) ++ nextClicks
        extracted := true
        aiStatus := some st
        aiError := err }

/-- handleTextContent from contentHandler.ts: click the next button. -/
def handleTextContentM (dom : Dom) : TickResult :=
  match clickNextButton dom with
  | some b => singleClick b
  | none => noTick

/-- isExamSubmissionDialogPresent from contentHandler.ts. -/
def isExamSubmissionDialogPresent (dom : Dom) : Bool :=
  match dom.dialogAlertText with
  | some t => strIncludes (jsToLower t) "ready to submit this exam"
  | none => false

/-- clickSubmitExamButton from contentHandler.ts: the forEach assignment
keeps the last dialog button whose text contains submit exam. -/
def clickSubmitExamButton (dom : Dom) : Option Button :=
  (dom.dialogButtons.filter fun b => strIncludes (normText b.text) "submit exam").getLast?

/-- processCurrentContent from contentHandler.ts: auto-confirm a submission
dialog first (yielding unknown), otherwise classify and dispatch to the
per-type handler. -/
def processCurrentContent (dom : Dom) (r : AiResult) : ContentType × TickResult :=
  if isExamSubmissionDialogPresent dom then
    (ContentType.unknown,
      match clickSubmitExamButton dom with
      | some b => singleClick b
      | none => noTick)
  else
    match detectContentType dom with
    | ContentType.true_false => (ContentType.true_false, handleTrueFalseContentM dom r)
    | ContentType.multiple_choice => (ContentType.multiple_choice, handleMultipleChoiceContentM dom r)
    | ContentType.unit_exam => (ContentType.unit_exam, handleUnitExamContentM dom r)
    | ContentType.text_content => (ContentType.text_content, handleTextContentM dom)
    | ContentType.unknown => (ContentType.unknown, noTick)

/-- One pass of the polling loop from App.tsx: bail out with no effects
when a try-again control is present, otherwise run processCurrentContent,
and for an unknown content type additionally attempt the next-button
fallback click. -/
def tick (dom : Dom) (r : AiResult) : TickResult :=
  if hasTryAgainButton dom then noTick
  else
    let ctr := processCurrentContent dom r
    if ctr.1 == ContentType.unknown then
      { ctr.2 with
          actions := ctr.2.actions ++
            (match clickNextButton dom with
             | some b => [Action.clickPageButton b]
             | none => []) }
    else ctr.2

/- ===================== C5 theorems ===================== -/

/-- A try-again control: a next-unit button bound to ctrl.resetInquiry(). -/
def tryAgainBtn : Button :=
  { isButtonTag := true
    classes := ["unit-btn", "next-unit-btn"]
    text := "Try Again"
    ngClick := some "ctrl.resetInquiry()"
    disabled := false }

/-- A DOM whose only button is the try-again control. -/
def domTryAgain : Dom :=
  { emptyDom with buttons := [tryAgainBtn] }

/-- The background reply carrying an error status. -/
def rError : AiResult :=
  { status := "error", aiResponse := none, error := some "boom" }

/-- C5: when a try-again control is present before a tick begins, the tick
performs no extraction, no injection and no clicks, for every DOM state and
every background reply: the polling pass returns before touching any
handler. -/
theorem c5_try_again_tick_inert :
    ∀ dom r, hasTryAgainButton dom = true →
      tick dom r = noTick
      ∧ (tick dom r).actions = []
      ∧ (tick dom r).extracted = false
      ∧ (tick dom r).aiStatus = none := by
  intro dom r h
  have ht : tick dom r = noTick := by
    unfold tick
    rw [if_pos h]
  exact ⟨ht, by rw [ht]; rfl, by rw [ht]; rfl, by rw [ht]; rfl⟩

/-- Witness for C5: the inert-tick theorem applied to the try-again DOM. -/
theorem c5_witness :
    hasTryAgainButton domTryAgain = true ∧ tick domTryAgain rError = noTick :=
  ⟨by decide, (c5_try_again_tick_inert domTryAgain rError (by decide)).1⟩

/- ===================== C4 theorems ===================== -/

/-- A true/false page whose only button is an enabled Check Answers
button. -/
def domTfError : Dom :=
  { emptyDom with trueFalseEl := true, buttons := [checkAnswersBtn] }

/-- C4 counterexample: on a true/false tick, an error reply from the answer
source does set the AI status to error with the supplied message, but the
tick still mutates the DOM: the true/false handler runs the check-answers
cascade unconditionally after the empty injection, clicking the Check
Answers button. -/
theorem c4_counterexample :
    rError.status = "error"
    ∧ tick domTfError rError
        = { actions := [Action.clickPageButton checkAnswersBtn]
            extracted := true
            aiStatus := some AiStatus.error
            aiError := some "boom" } := by
  constructor
  · rfl
  · decide

/-- A unit-exam page fixture. -/
def domUnitExam : Dom :=
  { emptyDom with
      unitExamEl := some { radioInputCount := 2, hasExamQuestionBoxDesc := true }
      examRadioLabels := ["A", "B"]
      nodeContentText := some "Q" }

/-- C4 (amended): on an error status the callback leaves AI status error
carrying the supplied message and an empty answer list; the multiple-choice
and unit-exam handlers then perform no DOM mutation at all; the true/false
handler performs no option click, but still runs the check-answers cascade,
whose actions are its only mutations. -/
theorem c4_error_status_behaviour :
    (∀ qd r, r.status = "error" →
       handleOpenAIProcessing qd r = ({ answers := [] }, AiStatus.error, some (errMsg r)))
    ∧ (∀ dom r, r.status = "error" → hasTryAgainButton dom = false →
        (∀ b, queryNextNotReset dom = some b → b.disabled = true) →
        (extractMultipleChoiceQuestionData dom).isSome = true →
        handleMultipleChoiceContentM dom r
          = { actions := [], extracted := true, aiStatus := some AiStatus.error,
              aiError := some (errMsg r) })
    ∧ (∀ dom r, r.status = "error" →
        handleUnitExamContentM dom r
          = { actions := [], extracted := true, aiStatus := some AiStatus.error,
              aiError := some (errMsg r) })
    ∧ (∀ dom r, r.status = "error" → hasTryAgainButton dom = false →
        (∀ b, queryNextNotReset dom = some b → b.disabled = true) →
        handleTrueFalseContentM dom r
          = { actions := ccabActions dom, extracted := true, aiStatus := some AiStatus.error,
              aiError := some (errMsg r) }
        ∧ ∀ i el, Action.clickOption i el ∉ ccabActions dom) := by
  have hcb : ∀ qd r, r.status = "error" →
      handleOpenAIProcessing qd r = ({ answers := [] }, AiStatus.error, some (errMsg r)) := by
    intro qd r h
    unfold handleOpenAIProcessing
    simp [h]
  have hnoopt : ∀ dom i el, Action.clickOption i el ∉ ccabActions dom := by
    intro dom i el
    unfold ccabActions
    cases clickCheckAnswersButton dom with
    | some b => simp
    | none => simp
  refine ⟨hcb, ?_, ?_, ?_⟩
  · intro dom r h htry hnext hx
    obtain ⟨qd, hqd⟩ := Option.isSome_iff_exists.mp hx
    unfold handleMultipleChoiceContentM
    simp only [htry, Bool.false_eq_true, if_false]
    have hcore : handleMultipleChoiceCore dom r
        = { actions := [], extracted := true, aiStatus := some AiStatus.error,
            aiError := some (errMsg r) } := by
      unfold handleMultipleChoiceCore
      simp only [hqd, hcb qd r h]
    cases hq : queryNextNotReset dom with
    | some b =>
      have hd : b.disabled = true := hnext b hq
      simp only [hq, hd, Bool.not_true, Bool.false_eq_true, if_false]
      exact hcore
    | none =>
      simp only [hq]
      exact hcore
  · intro dom r h
    have hx : (extractUnitExamQuestionData dom).isSome = true := rfl
    obtain ⟨qd, hqd⟩ := Option.isSome_iff_exists.mp hx
    unfold handleUnitExamContentM
    simp only [hqd, hcb qd r h]
  · intro dom r h htry hnext
    refine ⟨?_, hnoopt dom⟩
    obtain ⟨qd, hqd⟩ := Option.isSome_iff_exists.mp
      (show (extractTrueFalseQuestionData dom).isSome = true from rfl)
    unfold handleTrueFalseContentM
    simp only [htry, Bool.false_eq_true, if_false]
    have hcore : handleTrueFalseCore dom r
        = { actions := ccabActions dom, extracted := true, aiStatus := some AiStatus.error,
            aiError := some (errMsg r) } := by
      unfold handleTrueFalseCore
      simp only [hqd, hcb qd r h]
      have hsel : selectTrueFalseAnswers qd [] = [] := rfl
      simp [hsel, optionClicks]
    cases hq : queryNextNotReset dom with
    | some b =>
      have hd : b.disabled = true := hnext b hq
      simp only [hq, hd, Bool.not_true, Bool.false_eq_true, if_false]
      exact hcore
    | none =>
      simp only [hq]
      exact hcore

/-- Witness for C4: the amended theorem at the unit-exam fixture and the
error reply, and at the Check Answers true/false fixture. -/
theorem c4_witness :
    handleUnitExamContentM domUnitExam rError
      = { actions := [], extracted := true, aiStatus := some AiStatus.error,
          aiError := some (errMsg rError) }
    ∧ handleTrueFalseContentM domTfError rError
      = { actions := ccabActions domTfError, extracted := true, aiStatus := some AiStatus.error,
          aiError := some (errMsg rError) } := by
  constructor
  · exact c4_error_status_behaviour.2.2.1 domUnitExam rError rfl
  · refine (c4_error_status_behaviour.2.2.2 domTfError rError rfl (by decide) ?_).1
    intro b hb
    rw [show queryNextNotReset domTfError = none from by decide] at hb
    cases hb

end RealEstateExam
